import Mathlib

/-
Shallow embedding of the category-data pipeline of the ebay-category-analyzer
repository: the eBay Browse client (token lifecycle, search error handling,
per-item detail enrichment, variant-group aggregation), the TrendAnalyzer
statistics, the file-based CacheManager, and the HTTP route that maps
extractMetrics over an item list.

Conventions of the embedding:
- JS objects are duck-typed records; an absent key is `none`.
- Numeric strings that the code feeds through parseFloat/parseInt are modelled
  as the already-parsed value, `none` standing for an absent, empty, or
  unparseable field (whose parse would be NaN or hit a falsy fallback).
- Timestamps (Date.now()) are integers in milliseconds.
- A throwing JS function is an `Except`-valued Lean function; a function whose
  failure paths are all caught inside it is a total function returning Option.
-/

namespace EbayAnalyzer

/-- Outcome of feeding a nonempty price string through JS parseFloat: either the
parsed rational or NaN for a string that fails to parse. NaN matters because the
JS comparison `<` is false whenever either side is NaN, unlike the Infinity that
the `||` fallbacks substitute for an absent or empty value. -/
inductive PVal where
  | num (q : ℚ)
  | nan
  deriving DecidableEq, Inhabited

/-- Monetary amount as the code consumes it: `value` is the outcome of reading
the price string — `none` when the field is absent or the string empty (both
falsy, so every `||` fallback fires), `PVal.num q` when parseFloat parses it,
`PVal.nan` when a nonempty string fails to parse; `currency` the currency
code. -/
structure Price where
  value : Option PVal
  currency : Option String
  deriving DecidableEq, Inhabited

/-- Image reference as returned by the Browse API. -/
structure Image where
  imageUrl : Option String
  deriving DecidableEq, Inhabited

/-- Seller block of a Browse item. -/
structure Seller where
  username : Option String
  feedbackScore : Option Nat
  feedbackPercentage : Option ℚ
  deriving DecidableEq, Inhabited

/-- Marketing price block (discount information). -/
structure MarketingPrice where
  originalPrice : Option Price
  discountPercentage : Option ℚ
  deriving DecidableEq, Inhabited

/-- One element of the estimatedAvailabilities array of a Browse item detail. -/
structure Availability where
  estimatedSoldQuantity : Option Nat
  estimatedRemainingQuantity : Option Nat
  estimatedAvailableQuantity : Option Nat
  availabilityThreshold : Option Nat
  availabilityThresholdType : Option String
  deliveryOptions : Option (List String)
  deriving DecidableEq, Inhabited

/-- One element of the shippingOptions array. -/
structure ShippingOption where
  shippingCost : Option Price
  type : Option String
  deriving DecidableEq, Inhabited

/-- The shipToLocations block of an item detail. -/
structure ShipToLocationsBlock where
  regionIncluded : Option (List String)
  deriving DecidableEq, Inhabited

/-- A returnPeriod value: amount and unit. -/
structure TimeDuration where
  value : Option Nat
  unit : Option String
  deriving DecidableEq, Inhabited

/-- The returnTerms block of an item detail. -/
structure ReturnTerms where
  returnsAccepted : Option Bool
  returnPeriod : Option TimeDuration
  returnShippingCostPayer : Option String
  deriving DecidableEq, Inhabited

/-- The itemLocation block of an item detail. -/
structure ItemLocationBlock where
  city : Option String
  stateOrProvince : Option String
  country : Option String
  deriving DecidableEq, Inhabited

/-- The primaryItemGroup block of an item detail. -/
structure ItemGroupRef where
  itemGroupId : Option String
  deriving DecidableEq, Inhabited

/-- Response shape of the Browse item-detail endpoint (GET /item/:id); also the
shape of every variant returned by get_items_by_item_group. Arrays the code
indexes with `?.[0]` are plain lists (an absent array behaves like `[]`,
both give undefined at index 0). -/
structure Detail where
  itemId : Option String
  title : Option String
  price : Option Price
  marketingPrice : Option MarketingPrice
  watchCount : Option Nat
  image : Option Image
  additionalImages : Option (List Image)
  images : Option (List Image)
  shortDescription : Option String
  categoryPath : Option String
  shippingOptions : List ShippingOption
  shipToLocations : Option ShipToLocationsBlock
  returnTerms : Option ReturnTerms
  estimatedAvailabilities : List Availability
  itemLocation : Option ItemLocationBlock
  primaryItemGroup : Option ItemGroupRef
  deriving DecidableEq, Inhabited

/-- A listing record as it flows through the pipeline: the fields a Browse
ItemSummary carries plus every flattened field that enrichItemsWithDetails
writes. A bare summary is an Item whose enrichment fields are `none`. -/
structure Item where
  itemId : String
  legacyItemId : Option String
  title : Option String
  price : Option Price
  image : Option Image
  itemWebUrl : Option String
  condition : Option String
  seller : Option Seller
  topRatedBuyingExperience : Option Bool
  priorityListing : Option Bool
  shippingOptions : List ShippingOption
  watchCount : Option Nat
  quantitySold : Option Nat
  marketingPrice : Option MarketingPrice
  imageUrl : Option String
  additionalImages : Option (List Image)
  shortDescription : Option String
  categoryPath : Option String
  shippingCost : Option Price
  shippingType : Option String
  shipToLocations : Option (List String)
  returnsAccepted : Option Bool
  returnPeriod : Option String
  returnShippingPayer : Option String
  availabilityThreshold : Option Nat
  availabilityThresholdType : Option String
  estimatedAvailableQuantity : Option Nat
  estimatedRemainingQuantity : Option Nat
  deliveryOptions : Option (List String)
  itemLocationCity : Option String
  itemLocationState : Option String
  itemLocationCountry : Option String
  deriving DecidableEq, Inhabited

/-- JS `a || b` on an optional string: an absent or empty string is falsy. -/
def jsOrStr : Option String → Option String → Option String
  | some s, b => if s = "" then b else some s
  | none, b => b

/-- JS `a || d` collapsed to a string default: absent or empty falls to `d`. -/
def jsStrD (a : Option String) (d : String) : String :=
  match a with
  | some s => if s = "" then d else s
  | none => d

/-- JS string coercion of a possibly-undefined value, as in `x + ' ' + y`. -/
def undefStr (a : Option String) : String := a.getD "undefined"

/-- JS string coercion of a possibly-undefined number. -/
def natUndefStr : Option Nat → String
  | some n => toString n
  | none => "undefined"

/- ## CacheManager (src/packages/api/src/utils/cache.js) -/

/-- Content of one cache file: either an entry written by CacheManager.set (a
write timestamp and the payload) or bytes on which JSON.parse throws. -/
inductive FileContent (α : Type) where
  | corrupt
  | entry (timestamp : Int) (data : α)
  deriving DecidableEq

/-- The cache directory: for each file path, the content of the file when it
exists. Models the fs calls existsSync / readFileSync / writeFileSync /
unlinkSync that CacheManager performs. -/
structure CacheDir (α : Type) where
  files : String → Option (FileContent α)

/-- CacheManager.getCacheFilePath sanitization: `key.replace(/[^a-z0-9_-]/gi, '_')`. -/
def sanitizeKey (key : String) : String :=
  String.map (fun c => if c.isAlpha || c.isDigit || c = '_' || c = '-' then c else '_') key

/-- CacheManager.getCacheFilePath: sanitized key plus the `.json` extension (the
constant cache-directory component is dropped, it is the same for every key). -/
def getCacheFilePath (key : String) : String :=
  sanitizeKey key ++ ".json"

/-- Remove one path from the directory. -/
def CacheDir.deleteFile (st : CacheDir α) (path : String) : CacheDir α :=
  ⟨fun p => if p = path then none else st.files p⟩

/-- CacheManager.delete: unlink the file for the key when it exists. Its own
failure paths are caught inside, so it is total. -/
def cacheDelete (st : CacheDir α) (key : String) : CacheDir α :=
  st.deleteFile (getCacheFilePath key)

/-- CacheManager.get: return null when the file is missing; on a parse failure
delete the entry and return null (the catch block); on an entry older than
cacheDuration delete it and return null; otherwise return the payload. Every
failure path is caught, so the function is total and never throws. -/
def cacheGet (cacheDuration : Int) (now : Int) (st : CacheDir α) (key : String) :
    Option α × CacheDir α :=
  match st.files (getCacheFilePath key) with
  | none => (none, st)
  | some .corrupt => (none, cacheDelete st key)
  | some (.entry ts data) =>
    if now - ts > cacheDuration then (none, cacheDelete st key)
    else (some data, st)

/-- CacheManager.set: write the entry with timestamp now for the key. -/
def cacheSet (now : Int) (st : CacheDir α) (key : String) (data : α) : CacheDir α :=
  ⟨fun p => if p = getCacheFilePath key then some (.entry now data) else st.files p⟩

/- ## Token lifecycle (getAccessToken, src/packages/api/src/api/ebayClient.js) -/

/-- In-memory token state of EbayClient: this.accessToken and this.tokenExpiry. -/
structure TokenState where
  accessToken : Option String
  tokenExpiry : Option Int
  deriving DecidableEq, Inhabited

/-- Body of a successful OAuth client-credentials response. -/
structure OAuthResponse where
  access_token : String
  expires_in : Int
  deriving DecidableEq, Inhabited

/-- The 5-minute safety margin the client subtracts from the reported token
lifetime, in milliseconds. -/
def safetyMarginMs : Int := 300 * 1000

/-- The JS guard `this.accessToken && this.tokenExpiry && Date.now() < this.tokenExpiry`
(an empty token string or a zero expiry is falsy). -/
def tokenCacheValid (st : TokenState) (now : Int) : Bool :=
  match st.accessToken, st.tokenExpiry with
  | some tok, some exp => !(tok == "") && !(exp == 0) && decide (now < exp)
  | _, _ => false

/-- getAccessToken: return the cached token when the guard holds; otherwise call
the OAuth endpoint (`oauth` is its outcome: none models a failed exchange).
On success store the token with tokenExpiry = now + (expires_in - 300) * 1000,
five minutes before the actual expiry. The returned Bool records whether a
network call to the OAuth endpoint was made. -/
def getAccessToken (st : TokenState) (now : Int) (oauth : Option OAuthResponse) :
    Except String (String × TokenState × Bool) :=
  if tokenCacheValid st now then
    .ok (st.accessToken.getD "", st, false)
  else
    match oauth with
    | none => .error "Failed to get OAuth token. Check your EBAY_APP_ID and EBAY_CERT_ID."
    | some r =>
      .ok (r.access_token,
        { accessToken := some r.access_token,
          tokenExpiry := some (now + (r.expires_in - 300) * 1000) }, true)

/-- The instant a token actually expires, recovered from the stored field: the
code sets tokenExpiry = fetchTime + (expires_in - 300) * 1000 while the real
expiry is fetchTime + expires_in * 1000, so it is tokenExpiry plus the margin. -/
def realExpiry (storedExpiry : Int) : Int := storedExpiry + safetyMarginMs

/- ## TrendAnalyzer.calculateCategoryStats -/

/-- The CategoryStats record. -/
structure CategoryStats where
  avgPrice : ℚ
  minPrice : ℚ
  maxPrice : ℚ
  totalListings : Nat
  totalWatchers : Nat
  avgWatchers : ℚ
  deriving DecidableEq

/-- The all-zero stats returned for an empty or absent item list. -/
def zeroStats : CategoryStats :=
  { avgPrice := 0, minPrice := 0, maxPrice := 0,
    totalListings := 0, totalWatchers := 0, avgWatchers := 0 }

/-- JS `parseFloat(x || 0)` collapsed to a rational: an absent or empty value is
0 and a nonempty unparseable one is NaN; the stats filter `p > 0` rejects NaN
and 0 alike, so both map to 0 here, and in extractMetrics, whose price no claim
observes, the same collapse applies. -/
def parseValD (v : Option PVal) : ℚ :=
  match v with
  | some (PVal.num q) => q
  | _ => 0

/-- JS `parseFloat(item.price?.value || 0)`. -/
def statPrice (it : Item) : ℚ := parseValD (it.price >>= Price.value)

/-- JS `parseInt(item.watchCount || 0)`. -/
def statWatch (it : Item) : Nat := it.watchCount.getD 0

/-- JS `Math.min(...prices)` on a list the code has checked to be nonempty. -/
def listMin : List ℚ → ℚ
  | [] => 0
  | x :: xs => xs.foldl min x

/-- JS `Math.max(...prices)` on a list the code has checked to be nonempty. -/
def listMax : List ℚ → ℚ
  | [] => 0
  | x :: xs => xs.foldl max x

/-- TrendAnalyzer.calculateCategoryStats: `none` is the JS `!items` case. Prices
are filtered to positive values before min/max/average; every division is
guarded by a positive-length check exactly as in the source. -/
def calculateCategoryStats (items : Option (List Item)) : CategoryStats :=
  match items with
  | none => zeroStats
  | some its =>
    if its.length = 0 then zeroStats
    else
      let prices := (its.map statPrice).filter (fun p => decide (0 < p))
      let watchers := its.map statWatch
      { avgPrice := if 0 < prices.length then prices.sum / (prices.length : ℚ) else 0,
        minPrice := if 0 < prices.length then listMin prices else 0,
        maxPrice := if 0 < prices.length then listMax prices else 0,
        totalListings := its.length,
        totalWatchers := watchers.sum,
        avgWatchers := if 0 < watchers.length then (watchers.sum : ℚ) / (watchers.length : ℚ) else 0 }

/- ## Search error classification (findItemsByCategory catch handlers) -/

/-- What a catch handler can see of a failed search call: the upstream error
code found at error.response.data.errorMessage[0].error[0].errorId[0] when the
response body carries one, and the transport error message. -/
structure UpstreamFailure where
  errorId : Option String
  message : String
  deriving DecidableEq

/-- Catch handler of findItemsByCategory in the Finding-API client
(src/src/api/ebayClient.js): the rate-limit code 10001 gets its own error with
cool-down guidance; every other failure gets the generic wrapper. No retry is
performed: the function throws directly to the caller. -/
def findingCatchMessage (e : UpstreamFailure) : String :=
  if e.errorId = some "10001" then
    "eBay API rate limit exceeded. Please wait 1 hour and try again."
  else
    "Failed to fetch data from eBay: " ++ e.message

/-- Catch handler of findItemsByCategory in the Browse-API client
(src/packages/api/src/api/ebayClient.js): the response body is only logged;
every failure, rate limit included, gets the same generic wrapper. -/
def browseCatchMessage (e : UpstreamFailure) : String :=
  "Failed to fetch data from eBay: " ++ e.message

/- ## Variant-group aggregation (getItemGroupDetails) -/

/-- JS `parseFloat(item.price?.value || Infinity)`: the value compared by the
cheapest-variation reduce. `none` stands for the Infinity that the `||`
fallback substitutes when the price block or its value is absent or empty;
`some PVal.nan` is the NaN that parseFloat produces for a nonempty unparseable
string, which is truthy and therefore skips the fallback. -/
def groupPrice (d : Detail) : Option PVal := d.price >>= Price.value

/-- JS `<` on the values above: false whenever either side is NaN, every finite
value is below Infinity (`none`), Infinity is below nothing, finite values
compare numerically. -/
def pLt : Option PVal → Option PVal → Bool
  | _, some PVal.nan => false
  | some PVal.nan, _ => false
  | some (PVal.num a), some (PVal.num b) => decide (a < b)
  | some (PVal.num _), none => true
  | none, _ => false

/-- The reduce step of the cheapest-variation fold:
`(min, item) => price < minPrice ? item : min`. -/
def cheaperStep (m d : Detail) : Detail :=
  if pLt (groupPrice d) (groupPrice m) then d else m

/-- JS `allVariations.reduce(cheaperStep, allVariations[0])`: note the initial
value is the head while the fold still runs over the whole array. -/
def cheapestVariation (v0 : Detail) (vs : List Detail) : Detail :=
  vs.foldl cheaperStep v0

/-- JS `item.estimatedAvailabilities?.[0]?.estimatedSoldQuantity || 0`. -/
def soldOf (d : Detail) : Nat :=
  ((d.estimatedAvailabilities.head? >>= Availability.estimatedSoldQuantity).getD 0)

/-- JS `item.estimatedAvailabilities?.[0]?.estimatedRemainingQuantity || 0`. -/
def remainingOf (d : Detail) : Nat :=
  ((d.estimatedAvailabilities.head? >>= Availability.estimatedRemainingQuantity).getD 0)

/-- Sum of soldOf across all variations (the totalSold reduce). -/
def totalSold (vs : List Detail) : Nat := vs.foldl (fun s d => s + soldOf d) 0

/-- Sum of remainingOf across all variations (the totalRemaining reduce). -/
def totalRemaining (vs : List Detail) : Nat := vs.foldl (fun s d => s + remainingOf d) 0

/-- The spread `...cheapestVariation.estimatedAvailabilities?.[0]` of an absent
availability block: an empty object, every key undefined. -/
def emptyAvailability : Availability :=
  { estimatedSoldQuantity := none, estimatedRemainingQuantity := none,
    estimatedAvailableQuantity := none, availabilityThreshold := none,
    availabilityThresholdType := none, deliveryOptions := none }

/-- The aggregated availability entry getItemGroupDetails builds: the cheapest
variation's first availability entry (or the empty spread) with the summed
quantities written over it. -/
def aggAvailability (cheapest : Detail) (allVariations : List Detail) : Availability :=
  { cheapest.estimatedAvailabilities.head?.getD emptyAvailability with
      estimatedSoldQuantity := some (totalSold allVariations),
      estimatedRemainingQuantity := some (totalRemaining allVariations) }

/-- Aggregation core of getItemGroupDetails over the variant array of the group
response: null when the array is empty, otherwise the cheapest variation with
its estimatedAvailabilities replaced by the single aggregated entry. -/
def getItemGroupDetails (items : List Detail) : Option Detail :=
  match items with
  | [] => none
  | v :: rest =>
    let allVariations := v :: rest
    let cheapest := cheapestVariation v allVariations
    some { cheapest with estimatedAvailabilities := [aggAvailability cheapest allVariations] }

/- ## Enrichment (enrichItemsWithDetails) -/

/-- The object literal merged over the summary when a detail lookup succeeds:
`{...item, watchCount: details.watchCount, ...}`. Keys listed in the literal are
written unconditionally from the detail (undefined when the detail lacks them);
only title, imageUrl and additionalImages carry `||` fallbacks. -/
def mergeDetail (item : Item) (details : Detail) : Item :=
  let avail0 := details.estimatedAvailabilities.head?
  { item with
    watchCount := details.watchCount,
    quantitySold := avail0 >>= Availability.estimatedSoldQuantity,
    price := details.price,
    marketingPrice := details.marketingPrice,
    imageUrl := jsOrStr (details.image >>= Image.imageUrl) (item.image >>= Image.imageUrl),
    additionalImages := some ((details.additionalImages <|> details.images).getD []),
    title := jsOrStr details.title item.title,
    shortDescription := details.shortDescription,
    categoryPath := details.categoryPath,
    shippingCost := details.shippingOptions.head? >>= ShippingOption.shippingCost,
    shippingType := details.shippingOptions.head? >>= ShippingOption.type,
    shipToLocations := details.shipToLocations >>= ShipToLocationsBlock.regionIncluded,
    returnsAccepted := details.returnTerms >>= ReturnTerms.returnsAccepted,
    returnPeriod := some
      (natUndefStr ((details.returnTerms >>= ReturnTerms.returnPeriod) >>= TimeDuration.value)
        ++ " "
        ++ undefStr ((details.returnTerms >>= ReturnTerms.returnPeriod) >>= TimeDuration.unit)),
    returnShippingPayer := details.returnTerms >>= ReturnTerms.returnShippingCostPayer,
    availabilityThreshold := avail0 >>= Availability.availabilityThreshold,
    availabilityThresholdType := avail0 >>= Availability.availabilityThresholdType,
    estimatedAvailableQuantity := avail0 >>= Availability.estimatedAvailableQuantity,
    estimatedRemainingQuantity := avail0 >>= Availability.estimatedRemainingQuantity,
    deliveryOptions := avail0 >>= Availability.deliveryOptions,
    itemLocationCity := details.itemLocation >>= ItemLocationBlock.city,
    itemLocationState := details.itemLocation >>= ItemLocationBlock.stateOrProvince,
    itemLocationCountry := details.itemLocation >>= ItemLocationBlock.country }

/-- Per-item body of the Promise.all map: fetch the detail (detailLookup is the
outcome of getItemDetails, none when it was caught and returned null); when the
detail names a nonempty itemGroupId, fetch the aggregated group (groupLookup,
none on failure or empty group) and use it instead; merge when anything was
found, otherwise pass the summary through unchanged. -/
def enrichOne (detailLookup : String → Option Detail)
    (groupLookup : String → Option Detail) (item : Item) : Item :=
  let details0 := detailLookup item.itemId
  let details :=
    match details0 with
    | none => none
    | some d =>
      match d.primaryItemGroup >>= ItemGroupRef.itemGroupId with
      | none => some d
      | some gid =>
        if gid = "" then some d
        else
          match groupLookup gid with
          | none => some d
          | some g => some g
  match details with
  | none => item
  | some d => mergeDetail item d

/-- enrichItemsWithDetails: Promise.all over items.map keeps one output slot per
input item, in input order. -/
def enrichItemsWithDetails (detailLookup : String → Option Detail)
    (groupLookup : String → Option Detail) (items : List Item) : List Item :=
  items.map (enrichOne detailLookup groupLookup)

/- ## IO schedule of the enrichment fan-out -/

/-- Events of one enrichment run as seen by the item-detail transport: lookup i
is issued, or lookup i completes. -/
inductive FanoutEvent where
  | start (i : Nat)
  | finish (i : Nat)
  deriving DecidableEq

/-- IO schedule of enrichItemsWithDetails: `Promise.all(items.map(async ...))`
runs the synchronous map and the following microtask drain to completion before
the event loop can deliver any HTTP completion, so every one of the n detail
requests is issued, in item order, before the first one finishes; completions
then arrive in some order. There is no worker pool or semaphore in the code. -/
def enrichSchedule (n : Nat) (completionOrder : List Nat) : List FanoutEvent :=
  (List.range n).map FanoutEvent.start ++ completionOrder.map FanoutEvent.finish

/-- Number of lookups in flight after a list of events. -/
def inFlightStep (c : Nat) : FanoutEvent → Nat
  | .start _ => c + 1
  | .finish _ => c - 1

/-- Number of lookups in flight after the whole event list. -/
def inFlightAfter (tr : List FanoutEvent) : Nat := tr.foldl inFlightStep 0

/-- The fan-out respects the bound w when every initial segment of the schedule
has at most w lookups open. -/
def fanoutBounded (w : Nat) (tr : List FanoutEvent) : Prop :=
  ∀ k ∈ List.range (tr.length + 1), inFlightAfter (tr.take k) ≤ w

instance (w : Nat) (tr : List FanoutEvent) : Decidable (fanoutBounded w tr) :=
  List.decidableBAll _ _

/- ## TrendAnalyzer.extractMetrics and the category route -/

/-- The metrics record extractMetrics returns for a valid item (the fields with
interesting defaults; remaining fields are analogous getD projections). -/
structure Metrics where
  price : ℚ
  currency : String
  title : String
  itemId : String
  watchCount : Nat
  quantitySold : Nat
  sellerUsername : String
  condition : String
  itemUrl : String
  deriving DecidableEq

/-- TrendAnalyzer.extractMetrics: throws "Invalid item data format - cache may be
outdated" when the item is null/undefined or has no price key; otherwise returns
the metrics record with getD-style defaults. -/
def extractMetrics (item : Option Item) : Except String Metrics :=
  match item with
  | none => .error "Invalid item data format - cache may be outdated"
  | some it =>
    match it.price with
    | none => .error "Invalid item data format - cache may be outdated"
    | some p =>
      .ok { price := parseValD p.value,
            currency := jsStrD p.currency "USD",
            title := jsStrD it.title "Unknown Product",
            itemId := jsStrD it.legacyItemId (if it.itemId = "" then "N/A" else it.itemId),
            watchCount := it.watchCount.getD 0,
            quantitySold := it.quantitySold.getD 0,
            sellerUsername := jsStrD (it.seller >>= Seller.username) "Unknown",
            condition := jsStrD it.condition "Unknown",
            itemUrl := jsStrD it.itemWebUrl "#" }

/-- The map `items.map((item) => analyzer.extractMetrics(item))` inside the
try-block of GET /api/category/:id: items are processed left to right and the
first throw aborts the whole request, which the route turns into a 500
response. -/
def categoryRouteMetrics : List Item → Except String (List Metrics)
  | [] => pure []
  | x :: xs =>
    extractMetrics (some x) >>= fun m =>
      categoryRouteMetrics xs >>= fun ms => pure (m :: ms)

/- ## Concrete inputs used to instantiate the theorems -/

/-- A variant with the given parsed price and sold quantity. -/
def exampleVariant (p : ℚ) (sold : Nat) : Detail :=
  { (default : Detail) with
      price := some { value := some (PVal.num p), currency := some "USD" },
      estimatedAvailabilities := [{ emptyAvailability with estimatedSoldQuantity := some sold }] }

/-- A variant whose nonempty price string fails to parse: its comparison value
is NaN. -/
def nanVariant : Detail :=
  { (default : Detail) with
      price := some { value := some PVal.nan, currency := some "USD" },
      estimatedAvailabilities := [{ emptyAvailability with estimatedSoldQuantity := some 4 }] }

/-- A variant with parsed price 7.50, the lowest parsed price in the
NaN-head scenario. -/
def cheapVariant : Detail := exampleVariant (mkRat 15 2) 1

/-- The variant set of the aggregation test scenario: prices 10.00, 7.50, 9.00
with sold quantities 2, 1, 3 (7.50 written as mkRat 15 2 so that the kernel can
evaluate the comparisons). -/
def exampleVariants : List Detail :=
  [exampleVariant 10 2, exampleVariant (mkRat 15 2) 1, exampleVariant 9 3]

/-- A bare summary with the given item id. -/
def demoItem (s : String) : Item := { (default : Item) with itemId := s }

/-- A detail carrying a watch count. -/
def demoDetail : Detail := { (default : Detail) with watchCount := some 5 }

/-- A detail transport whose lookup fails for item B only. -/
def demoLookup : String → Option Detail :=
  fun s => if s = "B" then none else some demoDetail

/-- A cache directory holding one corrupted file. -/
def corruptDir : CacheDir Nat :=
  ⟨fun p => if p = getCacheFilePath "category_1" then some FileContent.corrupt else none⟩

/-- An initially empty cache directory over Nat payloads. -/
def emptyDirNat : CacheDir Nat := ⟨fun _ => none⟩

/-- A summary that carries a price. -/
def summaryWithPrice : Item :=
  { (default : Item) with
      itemId := "X", price := some { value := some (PVal.num 10), currency := some "USD" } }

/-- A summary that carries a title. -/
def summaryTitled : Item := { (default : Item) with itemId := "Y", title := some "Widget" }

/-- A successful detail lookup result that has no price and no title. -/
def detailNoPrice : Detail := { (default : Detail) with watchCount := some 3 }

/-- An item that would pass extractMetrics. -/
def pricedItem : Item :=
  { (default : Item) with
      itemId := "A", price := some { value := some (PVal.num 5), currency := some "USD" } }

/-- An item with no price key, as a failed enrichment leaves a summary that never
had one, or as a successful detail without a price field writes one. -/
def pricelessItem : Item := { (default : Item) with itemId := "B" }

/- ## Theorems -/

/-- C4: for every key whose stored cache entry fails to parse, CacheManager.get
deletes that entry and returns not-found (null). The embedding of get is a total
function: every failure path of the source is inside a catch, so no error ever
reaches the caller. -/
theorem cacheGet_corrupt_self_heals {α : Type} (d now : Int) (st : CacheDir α) (key : String)
    (h : st.files (getCacheFilePath key) = some FileContent.corrupt) :
    (cacheGet d now st key).1 = none ∧
      ((cacheGet d now st key).2).files (getCacheFilePath key) = none := by
  simp [cacheGet, h, cacheDelete, CacheDir.deleteFile]

/-- Witness for C4: a concrete corrupted entry under key category_1. -/
theorem cacheGet_corrupt_self_heals_witness :
    (cacheGet 7200000 0 corruptDir "category_1").1 = none ∧
      ((cacheGet 7200000 0 corruptDir "category_1").2).files (getCacheFilePath "category_1") = none :=
  cacheGet_corrupt_self_heals 7200000 0 corruptDir "category_1" (by simp [corruptDir])

/-- C5: an entry written at t0 with time-to-live ttl is served by get at any time
strictly before t0 + ttl, and at any time strictly after t0 + ttl get deletes the
entry and returns not-found. -/
theorem cacheSet_get_ttl {α : Type} (ttl t0 now : Int) (st : CacheDir α) (key : String)
    (payload : α) :
    (now < t0 + ttl →
      cacheGet ttl now (cacheSet t0 st key payload) key =
        (some payload, cacheSet t0 st key payload)) ∧
    (t0 + ttl < now →
      (cacheGet ttl now (cacheSet t0 st key payload) key).1 = none ∧
        ((cacheGet ttl now (cacheSet t0 st key payload) key).2).files (getCacheFilePath key) =
          none) := by
  have hfile : (cacheSet t0 st key payload).files (getCacheFilePath key) =
      some (FileContent.entry t0 payload) := by
    simp [cacheSet]
  constructor
  · intro h
    simp only [cacheGet, hfile]
    rw [if_neg (by omega)]
  · intro h
    simp only [cacheGet, hfile]
    rw [if_pos (by omega)]
    exact ⟨rfl, by simp [cacheDelete, CacheDir.deleteFile]⟩

/-- Witness for C5: ttl 100 ms, write at 0, a hit at 50 and an eviction at 150. -/
theorem cacheSet_get_ttl_witness :
    (cacheGet 100 50 (cacheSet 0 emptyDirNat "category_1" 7) "category_1").1 = some 7 ∧
      (cacheGet 100 150 (cacheSet 0 emptyDirNat "category_1" 7) "category_1").1 = none := by
  constructor
  · rw [(cacheSet_get_ttl 100 0 50 emptyDirNat "category_1" 7).1 (by omega)]
  · exact ((cacheSet_get_ttl 100 0 150 emptyDirNat "category_1" 7).2 (by omega)).1

/-- C6 counterexample: the claim fails as stated. When the OAuth endpoint reports
a lifetime below the margin (here 0 seconds), getAccessToken still returns the
fresh token, whose real expiry (stored expiry plus the subtracted margin) is not
at least the 5-minute margin in the future: it is now itself. -/
theorem getAccessToken_margin_counterexample :
    getAccessToken { accessToken := none, tokenExpiry := none } 0
        (some { access_token := "tok", expires_in := 0 }) =
      Except.ok ("tok", { accessToken := some "tok", tokenExpiry := some (-300000) }, true) ∧
    realExpiry (-300000) - 0 < safetyMarginMs := by
  exact ⟨rfl, by decide⟩

/-- C6 (amended): a cached token is returned immediately with no network call
exactly when now is before the stored expiry, and its real expiry (stored expiry
plus the subtracted 300 s margin) is then strictly more than the margin in the
future; a freshly fetched token satisfies the margin provided the reported
lifetime is at least 300 seconds. -/
theorem getAccessToken_margin (st : TokenState) (now : Int) (oauth : Option OAuthResponse) :
    (∀ tok exp, st.accessToken = some tok → st.tokenExpiry = some exp →
      tok ≠ "" → exp ≠ 0 → now < exp →
      getAccessToken st now oauth = Except.ok (tok, st, false) ∧
        safetyMarginMs < realExpiry exp - now) ∧
    (tokenCacheValid st now = false → ∀ r, oauth = some r → 300 ≤ r.expires_in →
      getAccessToken st now oauth =
        Except.ok (r.access_token,
          { accessToken := some r.access_token,
            tokenExpiry := some (now + (r.expires_in - 300) * 1000) }, true) ∧
        safetyMarginMs ≤ realExpiry (now + (r.expires_in - 300) * 1000) - now) := by
  constructor
  · intro tok exp h1 h2 h3 h4 h5
    have hval : tokenCacheValid st now = true := by
      simp [tokenCacheValid, h1, h2, h3, h4, h5]
    refine ⟨?_, ?_⟩
    · simp [getAccessToken, hval, h1]
    · simp only [realExpiry, safetyMarginMs]
      omega
  · intro hval r hr h300
    subst hr
    refine ⟨?_, ?_⟩
    · simp [getAccessToken, hval]
    · simp only [realExpiry, safetyMarginMs]
      omega

/-- Witness for C6 (amended): a valid cached token at expiry 100000 queried at
time 50, and a fresh fetch with the standard 7200-second lifetime. -/
theorem getAccessToken_margin_witness :
    getAccessToken { accessToken := some "t", tokenExpiry := some 100000 } 50 none =
        Except.ok ("t", { accessToken := some "t", tokenExpiry := some 100000 }, false) ∧
      getAccessToken { accessToken := none, tokenExpiry := none } 0
          (some { access_token := "u", expires_in := 7200 }) =
        Except.ok ("u", { accessToken := some "u", tokenExpiry := some 6900000 }, true) := by
  constructor
  · exact ((getAccessToken_margin { accessToken := some "t", tokenExpiry := some 100000 } 50
      none).1 "t" 100000 rfl rfl (by decide) (by decide) (by decide)).1
  · have h := ((getAccessToken_margin { accessToken := none, tokenExpiry := none } 0
      (some { access_token := "u", expires_in := 7200 })).2 rfl
      { access_token := "u", expires_in := 7200 } rfl (by decide)).1
    exact h

/-- C7: calculateCategoryStats on an absent or empty list is the all-zero record,
and for any list in which every price is non-positive or unparseable the price
aggregates are zero rather than NaN or a division by zero: every division and
Math.min/max spread in the source is guarded by a positive-length check, which
the embedding reproduces, so no field is ever undefined. -/
theorem calculateCategoryStats_empty_zero :
    calculateCategoryStats none = zeroStats ∧
    calculateCategoryStats (some []) = zeroStats ∧
    ∀ its : List Item, (∀ it ∈ its, statPrice it ≤ 0) →
      (calculateCategoryStats (some its)).avgPrice = 0 ∧
      (calculateCategoryStats (some its)).minPrice = 0 ∧
      (calculateCategoryStats (some its)).maxPrice = 0 ∧
      (calculateCategoryStats (some its)).totalListings = its.length := by
  refine ⟨rfl, rfl, ?_⟩
  intro its h
  have hfil : (its.map statPrice).filter (fun p => decide (0 < p)) = [] := by
    rw [List.filter_eq_nil_iff]
    intro a ha
    rcases List.mem_map.mp ha with ⟨it, hmem, rfl⟩
    simpa using not_lt.mpr (h it hmem)
  by_cases hlen : its.length = 0
  · have hnil : its = [] := List.eq_nil_of_length_eq_zero hlen
    subst hnil
    exact ⟨rfl, rfl, rfl, rfl⟩
  · refine ⟨?_, ?_, ?_, ?_⟩ <;> simp [calculateCategoryStats, hlen, hfil]

/-- Witness for C7: one item with no parseable price. -/
theorem calculateCategoryStats_empty_zero_witness :
    (calculateCategoryStats (some [demoItem "A"])).avgPrice = 0 ∧
      (calculateCategoryStats (some [demoItem "A"])).minPrice = 0 ∧
      (calculateCategoryStats (some [demoItem "A"])).maxPrice = 0 ∧
      (calculateCategoryStats (some [demoItem "A"])).totalListings = 1 :=
  calculateCategoryStats_empty_zero.2.2 [demoItem "A"] (by decide)

/-- C8 counterexample: in the Browse-API client the claim fails. A search failure
that carries the upstream rate-limit code produces exactly the same generic error
as one that does not: the catch handler never inspects the code, so the caller
cannot distinguish a rate-limited failure and receives no cool-down guidance. -/
theorem browse_rate_limit_not_distinct :
    browseCatchMessage { errorId := some "10001", message := "Request failed with status code 429" } =
      browseCatchMessage { errorId := none, message := "Request failed with status code 429" } ∧
    browseCatchMessage { errorId := some "10001", message := "Request failed with status code 429" } =
      "Failed to fetch data from eBay: Request failed with status code 429" :=
  ⟨rfl, rfl⟩

/-- C8 (amended): the Finding-API client classifies the upstream rate-limit code
10001 as its own error, telling the caller to wait 1 hour before retrying, and
this message differs from the generic wrapper every other failure receives, so
rate-limited failures are distinguishable there; it throws directly, performing
no retry. The Browse-API client wraps every failure in the same generic error. -/
theorem findingCatchMessage_classifies :
    (∀ e : UpstreamFailure, e.errorId = some "10001" →
      findingCatchMessage e = "eBay API rate limit exceeded. Please wait 1 hour and try again.") ∧
    (∀ e : UpstreamFailure, e.errorId ≠ some "10001" →
      findingCatchMessage e = "Failed to fetch data from eBay: " ++ e.message) ∧
    (∀ m : String,
      "eBay API rate limit exceeded. Please wait 1 hour and try again." ≠
        "Failed to fetch data from eBay: " ++ m) := by
  refine ⟨?_, ?_, ?_⟩
  · intro e h; simp [findingCatchMessage, h]
  · intro e h; simp [findingCatchMessage, h]
  · intro m h
    have h2 := congrArg (fun s => s.data.head?) h
    have h3 : (some 'e' : Option Char) = some 'F' := h2
    exact absurd h3 (by decide)

/-- Witness for C8 (amended): the concrete 10001 failure and a concrete transport
failure, classified differently by the Finding-API client. -/
theorem findingCatchMessage_classifies_witness :
    findingCatchMessage { errorId := some "10001", message := "m" } =
      "eBay API rate limit exceeded. Please wait 1 hour and try again." ∧
    findingCatchMessage { errorId := none, message := "boom" } =
      "Failed to fetch data from eBay: boom" ∧
    findingCatchMessage { errorId := some "10001", message := "m" } ≠
      findingCatchMessage { errorId := none, message := "m" } := by
  refine ⟨findingCatchMessage_classifies.1 { errorId := some "10001", message := "m" } rfl,
    ?_, ?_⟩
  · exact (findingCatchMessage_classifies.2.1 { errorId := none, message := "boom" } (by simp))
  · rw [findingCatchMessage_classifies.1 { errorId := some "10001", message := "m" } rfl,
      findingCatchMessage_classifies.2.1 { errorId := none, message := "m" } (by simp)]
    exact findingCatchMessage_classifies.2.2 "m"

/-- Helper: the only error extractMetrics ever produces is the invalid-format
message. -/
theorem extractMetrics_error_unique (it : Option Item) (e : String)
    (h : extractMetrics it = Except.error e) :
    e = "Invalid item data format - cache may be outdated" := by
  cases it with
  | none =>
    injection h with h1
    exact h1.symm
  | some x =>
    cases hp : x.price with
    | none =>
      rw [extractMetrics, hp] at h
      injection h with h1
      exact h1.symm
    | some p =>
      rw [extractMetrics, hp] at h
      cases h

/-- C10: extractMetrics throws the invalid-format error for a null item and for
any item without a price key, and because GET /api/category/:id maps it over the
whole item list inside its try-block, one price-less item fails the whole
request instead of degrading it. -/
theorem extractMetrics_no_price_fails :
    extractMetrics none = Except.error "Invalid item data format - cache may be outdated" ∧
    (∀ it : Item, it.price = none →
      extractMetrics (some it) = Except.error "Invalid item data format - cache may be outdated") ∧
    (∀ items : List Item, ∀ it ∈ items, it.price = none →
      categoryRouteMetrics items =
        Except.error "Invalid item data format - cache may be outdated") := by
  refine ⟨rfl, ?_, ?_⟩
  · intro it h
    rw [extractMetrics, h]
  · intro items
    induction items with
    | nil => intro it h; exact absurd h (List.not_mem_nil it)
    | cons x xs ih =>
      intro it hmem hprice
      cases hx : extractMetrics (some x) with
      | error e =>
        have he := extractMetrics_error_unique (some x) e hx
        subst he
        show (extractMetrics (some x) >>= fun m =>
          categoryRouteMetrics xs >>= fun ms => pure (m :: ms)) = _
        rw [hx]
        rfl
      | ok mx =>
        rcases List.mem_cons.mp hmem with heq | hmem2
        · rw [heq] at hprice
          simp [extractMetrics, hprice] at hx
        · have hxs := ih it hmem2 hprice
          show (extractMetrics (some x) >>= fun m =>
            categoryRouteMetrics xs >>= fun ms => pure (m :: ms)) = _
          rw [hx]
          show (categoryRouteMetrics xs >>= fun ms => pure (mx :: ms)) = _
          rw [hxs]
          rfl

/-- Witness for C10: a two-item list whose second item has no price fails the
whole request. -/
theorem extractMetrics_no_price_fails_witness :
    extractMetrics (some pricelessItem) =
      Except.error "Invalid item data format - cache may be outdated" ∧
    categoryRouteMetrics [pricedItem, pricelessItem] =
      Except.error "Invalid item data format - cache may be outdated" :=
  ⟨extractMetrics_no_price_fails.2.1 pricelessItem rfl,
    extractMetrics_no_price_fails.2.2 [pricedItem, pricelessItem] pricelessItem (by simp) rfl⟩

/-- C1: enrichItemsWithDetails returns exactly one output item per input item,
the output at position i is derived from the input at position i, and whenever
the detail lookup for an item fails (getItemDetails caught the error and
returned null) the output at that position is the input summary unchanged. -/
theorem enrichItemsWithDetails_keeps_items (detailLookup groupLookup : String → Option Detail)
    (items : List Item) :
    (enrichItemsWithDetails detailLookup groupLookup items).length = items.length ∧
    ∀ (i : Nat) (it : Item), items[i]? = some it →
      (enrichItemsWithDetails detailLookup groupLookup items)[i]? =
        some (enrichOne detailLookup groupLookup it) ∧
      (detailLookup it.itemId = none →
        (enrichItemsWithDetails detailLookup groupLookup items)[i]? = some it) := by
  refine ⟨List.length_map _ _, ?_⟩
  intro i it h
  have hmap : (enrichItemsWithDetails detailLookup groupLookup items)[i]? =
      (items[i]?).map (enrichOne detailLookup groupLookup) := by
    simp [enrichItemsWithDetails]
  constructor
  · rw [hmap, h]
    rfl
  · intro hfail
    rw [hmap, h]
    simp [enrichOne, hfail]

/-- Witness for C1: the reference scenario, three summaries A, B, C where the
detail lookup for B fails; the run keeps three items and B keeps its bare
summary fields. -/
theorem enrichItemsWithDetails_keeps_items_witness :
    (enrichItemsWithDetails demoLookup (fun _ => none)
      [demoItem "A", demoItem "B", demoItem "C"]).length = 3 ∧
    (enrichItemsWithDetails demoLookup (fun _ => none)
      [demoItem "A", demoItem "B", demoItem "C"])[1]? = some (demoItem "B") := by
  constructor
  · exact (enrichItemsWithDetails_keeps_items demoLookup (fun _ => none)
      [demoItem "A", demoItem "B", demoItem "C"]).1
  · exact ((enrichItemsWithDetails_keeps_items demoLookup (fun _ => none)
      [demoItem "A", demoItem "B", demoItem "C"]).2 1 (demoItem "B") rfl).2 rfl

/-- C9 counterexample: the claim fails as stated. A summary with a price merged
with a successful detail lookup that lacks the price field yields an enriched
item whose price is unset: the merge writes `price: details.price`
unconditionally instead of falling back to the summary value. -/
theorem merge_no_summary_fallback :
    summaryWithPrice.price = some { value := some (PVal.num 10), currency := some "USD" } ∧
    detailNoPrice.price = none ∧
    (enrichOne (fun _ => some detailNoPrice) (fun _ => none) summaryWithPrice).price = none :=
  ⟨rfl, rfl, rfl⟩

/-- C9 (amended): in the merged item only title, imageUrl and additionalImages
carry fallbacks (title falls back to the summary title, imageUrl to the summary
image, additionalImages to the empty list); every other key of the merge
literal (price, watchCount, marketingPrice, shortDescription, categoryPath,
quantitySold, ...) is written from the detail unconditionally and is unset when
the detail lacks it, even when the summary had a value; keys the literal does
not list (itemId, itemWebUrl, condition, seller, ...) keep the summary values. -/
theorem mergeDetail_semantics (item : Item) (d : Detail) :
    ((d.title = none → (mergeDetail item d).title = item.title) ∧
      (∀ t, d.title = some t → t ≠ "" → (mergeDetail item d).title = some t)) ∧
    ((d.image >>= Image.imageUrl) = none →
      (mergeDetail item d).imageUrl = (item.image >>= Image.imageUrl)) ∧
    (d.additionalImages = none → d.images = none →
      (mergeDetail item d).additionalImages = some []) ∧
    ((mergeDetail item d).price = d.price ∧
      (mergeDetail item d).watchCount = d.watchCount ∧
      (mergeDetail item d).marketingPrice = d.marketingPrice ∧
      (mergeDetail item d).shortDescription = d.shortDescription ∧
      (mergeDetail item d).categoryPath = d.categoryPath ∧
      (mergeDetail item d).quantitySold =
        (d.estimatedAvailabilities.head? >>= Availability.estimatedSoldQuantity)) ∧
    ((mergeDetail item d).itemId = item.itemId ∧
      (mergeDetail item d).itemWebUrl = item.itemWebUrl ∧
      (mergeDetail item d).condition = item.condition ∧
      (mergeDetail item d).seller = item.seller) := by
  refine ⟨⟨?_, ?_⟩, ?_, ?_, ⟨rfl, rfl, rfl, rfl, rfl, rfl⟩, ⟨rfl, rfl, rfl, rfl⟩⟩
  · intro h; simp [mergeDetail, jsOrStr, h]
  · intro t h hne; simp [mergeDetail, jsOrStr, h, hne]
  · intro h; simp [mergeDetail, jsOrStr, h]
  · intro h1 h2; simp [mergeDetail, h1, h2]

/-- Witness for C9 (amended): merging a titled summary with a detail that has no
title, image or image lists keeps the summary title and gets an empty
additionalImages array. -/
theorem mergeDetail_semantics_witness :
    (mergeDetail summaryTitled detailNoPrice).title = summaryTitled.title ∧
    (mergeDetail summaryTitled detailNoPrice).additionalImages = some [] :=
  ⟨(mergeDetail_semantics summaryTitled detailNoPrice).1.1 rfl,
    (mergeDetail_semantics summaryTitled detailNoPrice).2.2.1 rfl rfl⟩

/-- Helper: folding the in-flight counter over a block of starts adds its
length. -/
theorem inFlight_over_starts (l : List Nat) (c : Nat) :
    (l.map FanoutEvent.start).foldl inFlightStep c = c + l.length := by
  induction l generalizing c with
  | nil => simp
  | cons x xs ih =>
    simp only [List.map_cons, List.foldl_cons, inFlightStep, ih, List.length_cons]
    omega

/-- C3 counterexample: the claim fails as stated. With two items and a worker
cap of one, the schedule of enrichItemsWithDetails reaches two lookups in
flight: the code fans out one concurrent getItemDetails call per item with no
worker pool. -/
theorem fanout_not_bounded :
    ¬ fanoutBounded 1 (enrichSchedule 2 [0, 1]) := by decide

/-- C3 (amended): the fan-out of enrichItemsWithDetails is one concurrent detail
lookup per item: for every run over n items, the first n events of its schedule
are the n starts and at that point exactly n lookups are in flight, so every cap
below n is exceeded. -/
theorem enrichSchedule_peak (n : Nat) (order : List Nat) :
    (enrichSchedule n order).take n = (List.range n).map FanoutEvent.start ∧
    inFlightAfter ((enrichSchedule n order).take n) = n := by
  have hlen : ((List.range n).map FanoutEvent.start).length = n := by simp
  have htake : (enrichSchedule n order).take n = (List.range n).map FanoutEvent.start := by
    rw [enrichSchedule, List.take_left' hlen]
  refine ⟨htake, ?_⟩
  rw [htake, inFlightAfter, inFlight_over_starts]
  simp

/-- Helper: Infinity is below nothing. -/
theorem pLt_none_left (b : Option PVal) : pLt none b = false := by
  cases b with
  | none => rfl
  | some pv => cases pv <;> rfl

/-- Helper: NaN is below nothing. -/
theorem pLt_nan_left (b : Option PVal) : pLt (some PVal.nan) b = false := by
  cases b with
  | none => rfl
  | some pv => cases pv <;> rfl

/-- Helper: nothing is below NaN. -/
theorem pLt_nan_right (a : Option PVal) : pLt a (some PVal.nan) = false := by
  cases a with
  | none => rfl
  | some pv => cases pv <;> rfl

/-- Helper: the variation comparison is irreflexive. -/
theorem pLt_irrefl (a : Option PVal) : pLt a a = false := by
  cases a with
  | none => rfl
  | some pv =>
    cases pv with
    | num q => simp [pLt]
    | nan => rfl

/-- Helper: the variation comparison is asymmetric. -/
theorem pLt_asymm {a b : Option PVal} (h : pLt a b = true) : pLt b a = false := by
  cases a with
  | none => rw [pLt_none_left] at h; cases h
  | some pv =>
    cases pv with
    | nan => rw [pLt_nan_left] at h; cases h
    | num q =>
      cases b with
      | none => exact pLt_none_left _
      | some pv2 =>
        cases pv2 with
        | nan => rw [pLt_nan_right] at h; cases h
        | num r =>
          simp only [pLt, decide_eq_true_eq] at h
          simp only [pLt, decide_eq_false_iff_not, not_lt]
          exact h.le

/-- Helper: the variation comparison is transitive. -/
theorem pLt_trans {a b c : Option PVal} (h1 : pLt a b = true) (h2 : pLt b c = true) :
    pLt a c = true := by
  cases a with
  | none => rw [pLt_none_left] at h1; cases h1
  | some pv =>
    cases pv with
    | nan => rw [pLt_nan_left] at h1; cases h1
    | num a0 =>
      cases b with
      | none => rw [pLt_none_left] at h2; cases h2
      | some pv2 =>
        cases pv2 with
        | nan => rw [pLt_nan_right] at h1; cases h1
        | num b0 =>
          cases c with
          | none => rfl
          | some pv3 =>
            cases pv3 with
            | nan => rw [pLt_nan_right] at h2; cases h2
            | num c0 =>
              simp only [pLt, decide_eq_true_eq] at h1 h2 ⊢
              exact lt_trans h1 h2

/-- Helper: strictly below b and c not below b gives strictly below c, provided
c is not NaN (a NaN c fails the conclusion while satisfying the premises: NaN
is not below anything and nothing is below NaN). -/
theorem pLt_lt_of_le {a b c : Option PVal} (h1 : pLt a b = true) (h2 : pLt c b = false)
    (hc : c ≠ some PVal.nan) : pLt a c = true := by
  cases a with
  | none => rw [pLt_none_left] at h1; cases h1
  | some pv =>
    cases pv with
    | nan => rw [pLt_nan_left] at h1; cases h1
    | num a0 =>
      cases c with
      | none => rfl
      | some pv2 =>
        cases pv2 with
        | nan => exact absurd rfl hc
        | num c0 =>
          cases b with
          | none =>
            rw [show pLt (some (PVal.num c0)) none = true from rfl] at h2
            cases h2
          | some pv3 =>
            cases pv3 with
            | nan => rw [pLt_nan_right] at h1; cases h1
            | num b0 =>
              simp only [pLt, decide_eq_true_eq] at h1
              simp only [pLt, decide_eq_false_iff_not, not_lt] at h2
              simp only [pLt, decide_eq_true_eq]
              exact lt_of_lt_of_le h1 h2

/-- Helper: a NaN-priced accumulator is never displaced: price < NaN is always
false in JS, so the fold returns it whatever follows. -/
theorem cheapestVariation_nan (l : List Detail) : ∀ acc : Detail,
    groupPrice acc = some PVal.nan → cheapestVariation acc l = acc := by
  induction l with
  | nil => intro acc _; rfl
  | cons x xs ih =>
    intro acc hacc
    have hstep : cheaperStep acc x = acc := by
      simp [cheaperStep, hacc, pLt_nan_right]
    calc cheapestVariation acc (x :: xs) = cheapestVariation (cheaperStep acc x) xs := rfl
      _ = cheapestVariation acc xs := by rw [hstep]
      _ = acc := ih acc hacc

/-- Helper: the reduce of getItemGroupDetails keeps the first-encountered
minimum among the variations whose price is not NaN. Folding the cheaper-step
over l starting from a non-NaN acc either returns acc with nothing in l
strictly cheaper, or returns a non-NaN element of l that is strictly cheaper
than acc, with everything before it in l either NaN-priced or strictly more
expensive, and nothing after it strictly cheaper. -/
theorem cheapestVariation_split (l : List Detail) : ∀ acc : Detail,
    groupPrice acc ≠ some PVal.nan →
    (cheapestVariation acc l = acc ∧
      ∀ x ∈ l, pLt (groupPrice x) (groupPrice acc) = false) ∨
    (∃ l1 l2, l = l1 ++ cheapestVariation acc l :: l2 ∧
      groupPrice (cheapestVariation acc l) ≠ some PVal.nan ∧
      pLt (groupPrice (cheapestVariation acc l)) (groupPrice acc) = true ∧
      (∀ x ∈ l1, groupPrice x = some PVal.nan ∨
        pLt (groupPrice (cheapestVariation acc l)) (groupPrice x) = true) ∧
      (∀ x ∈ l2, pLt (groupPrice x) (groupPrice (cheapestVariation acc l)) = false)) := by
  induction l with
  | nil =>
    intro acc _
    left
    exact ⟨rfl, by simp⟩
  | cons x xs ih =>
    intro acc hacc
    by_cases hx : pLt (groupPrice x) (groupPrice acc) = true
    · have hxnan : groupPrice x ≠ some PVal.nan := by
        intro hn
        rw [hn, pLt_nan_left] at hx
        cases hx
      have hstep : cheapestVariation acc (x :: xs) = cheapestVariation x xs := by
        simp [cheapestVariation, cheaperStep, hx]
      rcases ih x hxnan with ⟨heq, hall⟩ | ⟨l1, l2, hsplit, hrnan, hlt, hl1, hl2⟩
      · right
        refine ⟨[], xs, ?_, ?_, ?_, ?_, ?_⟩
        · simp [hstep, heq]
        · rw [hstep, heq]; exact hxnan
        · rw [hstep, heq]; exact hx
        · intro y hy; cases hy
        · intro y hy; rw [hstep, heq]; exact hall y hy
      · right
        refine ⟨x :: l1, l2, ?_, ?_, ?_, ?_, ?_⟩
        · rw [hstep, List.cons_append, ← hsplit]
        · rw [hstep]; exact hrnan
        · rw [hstep]; exact pLt_trans hlt hx
        · intro y hy
          rw [hstep]
          rcases List.mem_cons.mp hy with rfl | hy2
          · exact Or.inr hlt
          · exact hl1 y hy2
        · intro y hy; rw [hstep]; exact hl2 y hy
    · have hxf : pLt (groupPrice x) (groupPrice acc) = false := by
        cases hv : pLt (groupPrice x) (groupPrice acc)
        · rfl
        · exact absurd hv hx
      have hstep : cheapestVariation acc (x :: xs) = cheapestVariation acc xs := by
        simp [cheapestVariation, cheaperStep, hxf]
      rcases ih acc hacc with ⟨heq, hall⟩ | ⟨l1, l2, hsplit, hrnan, hlt, hl1, hl2⟩
      · left
        refine ⟨hstep.trans heq, ?_⟩
        intro y hy
        rcases List.mem_cons.mp hy with rfl | hy2
        · exact hxf
        · exact hall y hy2
      · right
        refine ⟨x :: l1, l2, ?_, ?_, ?_, ?_, ?_⟩
        · rw [hstep, List.cons_append, ← hsplit]
        · rw [hstep]; exact hrnan
        · rw [hstep]; exact hlt
        · intro y hy
          rw [hstep]
          rcases List.mem_cons.mp hy with heq | hy2
          · rw [heq]
            by_cases hxn : groupPrice x = some PVal.nan
            · exact Or.inl hxn
            · exact Or.inr (pLt_lt_of_le hlt hxf hxn)
          · exact hl1 y hy2
        · intro y hy; rw [hstep]; exact hl2 y hy

/-- Helper: the reduce of getItemGroupDetails runs over the whole array with the
head as initial value, and its first step compares the head with itself. -/
theorem cheapestVariation_cons_self (v : Detail) (vs : List Detail) :
    cheapestVariation v (v :: vs) = cheapestVariation v vs := by
  simp [cheapestVariation, cheaperStep, pLt_irrefl]

/-- C2 counterexample: the claim fails as stated. When the first variant has a
nonempty price string that does not parse, parseFloat yields NaN, the string
being truthy and skipping the Infinity fallback; price < NaN is false for every
candidate, so the reduce never displaces the NaN-priced head. Here the second
variant has the numerically lowest parsed price 7.50, yet the representative
keeps the NaN price, so the representative is not the variant with the lowest
parsed price. -/
theorem getItemGroupDetails_nan_head_kept :
    groupPrice nanVariant = some PVal.nan ∧
    groupPrice cheapVariant = some (PVal.num (mkRat 15 2)) ∧
    (getItemGroupDetails [nanVariant, cheapVariant]).map groupPrice = some (some PVal.nan) ∧
    (getItemGroupDetails [nanVariant, cheapVariant]).map groupPrice ≠
      some (groupPrice cheapVariant) := by
  refine ⟨rfl, rfl, ?_, ?_⟩ <;> decide

/-- C2 (amended): for every nonempty variant list, the aggregate is the
representative with only its estimatedAvailabilities replaced by the single
entry carrying the sold and remaining quantities summed over all variants,
every other field taken from the representative — and the representative is the
first-encountered cheapest variant in the JS order that parseFloat induces:
when the first variant's nonempty price string fails to parse, its NaN price is
never displaced and that first variant is the representative regardless of
later prices; otherwise the representative is not NaN-priced, occurs in the
list with every earlier variant either NaN-priced or strictly more expensive,
and no variant is strictly cheaper (absent or empty prices comparing as
Infinity, ties keeping the earlier variant). The variants priced 10.00, 7.50,
9.00 with sold quantities 2, 1, 3 aggregate to price 7.50 and sold quantity 6. -/
theorem getItemGroupDetails_aggregates :
    (∀ (v : Detail) (vs : List Detail), groupPrice v = some PVal.nan →
      getItemGroupDetails (v :: vs) =
        some { v with estimatedAvailabilities := [aggAvailability v (v :: vs)] }) ∧
    (∀ (v : Detail) (vs : List Detail), groupPrice v ≠ some PVal.nan →
      ∃ rep l1 l2,
        v :: vs = l1 ++ rep :: l2 ∧
        groupPrice rep ≠ some PVal.nan ∧
        (∀ x ∈ l1, groupPrice x = some PVal.nan ∨ pLt (groupPrice rep) (groupPrice x) = true) ∧
        (∀ x ∈ v :: vs, pLt (groupPrice x) (groupPrice rep) = false) ∧
        getItemGroupDetails (v :: vs) =
          some { rep with estimatedAvailabilities := [aggAvailability rep (v :: vs)] }) ∧
    (getItemGroupDetails exampleVariants).map (fun d => (groupPrice d, soldOf d)) =
      some (some (PVal.num (15 / 2 : ℚ)), 6) := by
  refine ⟨?_, ?_, ?_⟩
  · intro v vs hnan
    have hv : cheapestVariation v (v :: vs) = v :=
      (cheapestVariation_cons_self v vs).trans (cheapestVariation_nan vs v hnan)
    simp [getItemGroupDetails, hv]
  · intro v vs hvn
    refine ⟨cheapestVariation v (v :: vs), ?_⟩
    have hc : cheapestVariation v (v :: vs) = cheapestVariation v vs :=
      cheapestVariation_cons_self v vs
    rcases cheapestVariation_split vs v hvn with
      ⟨heq, hall⟩ | ⟨l1, l2, hsplit, hrnan, hlt, hl1, hl2⟩
    · refine ⟨[], vs, ?_, ?_, ?_, ?_, rfl⟩
      · simp [hc, heq]
      · rw [hc, heq]; exact hvn
      · intro y hy; cases hy
      · intro y hy
        rw [hc, heq]
        rcases List.mem_cons.mp hy with heq2 | hy2
        · rw [heq2]; exact pLt_irrefl _
        · exact hall y hy2
    · refine ⟨v :: l1, l2, ?_, ?_, ?_, ?_, rfl⟩
      · rw [hc, List.cons_append, ← hsplit]
      · rw [hc]; exact hrnan
      · intro y hy
        rw [hc]
        rcases List.mem_cons.mp hy with heq2 | hy2
        · rw [heq2]; exact Or.inr hlt
        · exact hl1 y hy2
      · intro y hy
        rw [hc]
        rcases List.mem_cons.mp hy with heq2 | hy2
        · rw [heq2]; exact pLt_asymm hlt
        · rw [hsplit] at hy2
          rcases List.mem_append.mp hy2 with hyl1 | hyr
          · rcases hl1 y hyl1 with hn | hlty
            · rw [hn]; exact pLt_nan_left _
            · exact pLt_asymm hlty
          · rcases List.mem_cons.mp hyr with heq3 | hyl2
            · rw [heq3]; exact pLt_irrefl _
            · exact hl2 y hyl2
  · have h : (mkRat 15 2 : ℚ) = 15 / 2 := by norm_num [mkRat, Rat.normalize]
    rw [← h]
    decide

/-- Witness for C2 (amended): the NaN-head branch applied to the concrete
two-variant scenario, the non-NaN branch applied to the 10.00/7.50/9.00
variants, and the concrete aggregation outcome. -/
theorem getItemGroupDetails_aggregates_witness :
    getItemGroupDetails [nanVariant, cheapVariant] =
      some { nanVariant with
        estimatedAvailabilities := [aggAvailability nanVariant [nanVariant, cheapVariant]] } ∧
    (∃ rep l1 l2,
      exampleVariant 10 2 :: [exampleVariant (mkRat 15 2) 1, exampleVariant 9 3] =
        l1 ++ rep :: l2 ∧
      groupPrice rep ≠ some PVal.nan ∧
      (∀ x ∈ l1, groupPrice x = some PVal.nan ∨ pLt (groupPrice rep) (groupPrice x) = true) ∧
      (∀ x ∈ exampleVariant 10 2 :: [exampleVariant (mkRat 15 2) 1, exampleVariant 9 3],
        pLt (groupPrice x) (groupPrice rep) = false) ∧
      getItemGroupDetails
          (exampleVariant 10 2 :: [exampleVariant (mkRat 15 2) 1, exampleVariant 9 3]) =
        some { rep with estimatedAvailabilities :=
          [aggAvailability rep
            (exampleVariant 10 2 :: [exampleVariant (mkRat 15 2) 1, exampleVariant 9 3])] }) ∧
    (getItemGroupDetails exampleVariants).map (fun d => (groupPrice d, soldOf d)) =
      some (some (PVal.num (15 / 2 : ℚ)), 6) :=
  ⟨getItemGroupDetails_aggregates.1 nanVariant [cheapVariant] rfl,
    getItemGroupDetails_aggregates.2.1 (exampleVariant 10 2)
      [exampleVariant (mkRat 15 2) 1, exampleVariant 9 3] (by decide),
    getItemGroupDetails_aggregates.2.2⟩

end EbayAnalyzer
